import Mathlib

/-!
Verification of the servicetelemetry core: a shallow embedding in Lean 4 of the
admission controller (`core` package, ConcurrencyLimiter) and the probe
orchestrator (`core` package, ServiceChecker) together with proofs of the
behavioural properties claimed for them.

Conventions of the embedding:
* Go `time.Duration` values are `Int` nanoseconds; Go `int64` overflow is made
  explicit with `wrap64`.
* Go `time.Time` values are `Int` nanosecond timestamps; `time.Since(t)` at
  model time `now` is `now - t`.
* Network effects (TCP dials, HTTP exchanges) are inputs supplied by an
  environment oracle, one per retry attempt.
* Go strings are Lean `String`s; the handful of `strings` / `net` standard
  library functions the source calls are modelled explicitly below.
-/

namespace ServiceTelemetry

/-! ## Modelled Go standard-library string primitives -/

/-- Boolean list-of-characters prefix test; backs the model of Go
`strings.HasPrefix` and `strings.TrimPrefix`. -/
def listPre : List Char → List Char → Bool
  | [], _ => true
  | _ :: _, [] => false
  | a :: as, b :: bs => a = b && listPre as bs

/-- Modelled from Go `strings.HasPrefix`. -/
def goStartsWith (s pre : String) : Bool :=
  listPre pre.data s.data

/-- Modelled from Go `strings.TrimPrefix`: drops the prefix when present,
otherwise returns the string unchanged. -/
def goTrim (s pre : String) : String :=
  if goStartsWith s pre then ⟨s.data.drop pre.data.length⟩ else s

/-- Boolean infix (substring) test on character lists. -/
def listSub (sub : List Char) : List Char → Bool
  | [] => listPre sub []
  | c :: rest => listPre sub (c :: rest) || listSub sub rest

/-- Modelled from Go `strings.Contains`. -/
def goContains (s sub : String) : Bool :=
  listSub sub.data s.data

/-- Modelled from Go `strings.ToLower`, restricted to the ASCII range: the
uppercase ASCII letters map to their lowercase forms and every other character
is unchanged.  (Go additionally lowercases non-ASCII Unicode letters, but no
non-ASCII code point lowercases into the ASCII letters `t`, `c`, `p` that the
scheme dispatch inspects, so the restriction is faithful for every claim.) -/
def goToLowerChar (c : Char) : Char :=
  match c with
  | 'A' => 'a' | 'B' => 'b' | 'C' => 'c' | 'D' => 'd' | 'E' => 'e'
  | 'F' => 'f' | 'G' => 'g' | 'H' => 'h' | 'I' => 'i' | 'J' => 'j'
  | 'K' => 'k' | 'L' => 'l' | 'M' => 'm' | 'N' => 'n' | 'O' => 'o'
  | 'P' => 'p' | 'Q' => 'q' | 'R' => 'r' | 'S' => 's' | 'T' => 't'
  | 'U' => 'u' | 'V' => 'v' | 'W' => 'w' | 'X' => 'x' | 'Y' => 'y'
  | 'Z' => 'z'
  | other => other

/-- Modelled from Go `strings.ToLower` (see `goToLowerChar`). -/
def goToLower (s : String) : String :=
  ⟨s.data.map goToLowerChar⟩

/-! ## Go 64-bit integer arithmetic

`time.Duration` is an `int64`; multiplication and shifts wrap modulo `2^64`. -/

/-- Interpret an integer as a Go `int64`: reduce modulo `2^64` into
`[-2^63, 2^63)`. -/
def wrap64 (x : Int) : Int :=
  (x + 2 ^ 63) % 2 ^ 64 - 2 ^ 63

/-- Go `1 << i` at type `int64`: the exact power for `i ≤ 62`, the wrapped
value `-2^63` at `i = 63`, and `0` once the shift distance reaches the word
width. -/
def goShl1 (i : Nat) : Int :=
  if i < 64 then wrap64 (2 ^ i) else 0

/-- One millisecond in nanoseconds. -/
def msNs : Int := 1000000

/-- The backoff slice entry `backoff[i] = base * (1 << i)` computed by
`CheckTarget` (part_001 lines 106-111) with `base = 100 * time.Millisecond`,
including the `int64` wrap of the Go multiplication. -/
def backoffNs (i : Nat) : Int :=
  wrap64 (100 * msNs * goShl1 i)

/-! ## Data model (`core` package, part_003) -/

/-- `MonitorTarget`: url, optional keyword, current flag, priority tag. -/
structure MonitorTarget where
  url : String
  keyword : String
  isCurrent : Bool
  priority : String
deriving Repr, DecidableEq

/-- `MonitorResult` (part_003): the fields the core writes.  `checkedAt` is an
`Int` nanosecond timestamp and `responseTime` the measured milliseconds of the
last attempt. -/
structure MonitorResult where
  targetURL : String
  status : String
  statusCode : Int
  responseTime : Int
  sslCertExpiry : String
  keywordMatched : Bool
  errorMsg : String
  errorType : String
  warning : String
  checkedAt : Int
deriving Repr, DecidableEq

/-- The error-classification constants of part_001 lines 20-28 (`ErrorType` is
a Go string type). -/
def ErrorTypeNetwork : String := "network"

def ErrorTypeTimeout : String := "timeout"

def ErrorTypeSSL : String := "ssl"

def ErrorTypeHTTP : String := "http"

def ErrorTypeKeyword : String := "keyword"

def ErrorTypeInvalid : String := "invalid"

def ErrorTypeUnknown : String := "unknown"

/-! ## Result cache (part_001 lines 30-89)

The global `resultCache` map is modelled as an association list in which the
most recent binding for a key shadows older ones. -/

/-- Lookup in the modelled cache map. -/
def cacheLookup : List (String × MonitorResult) → String → Option MonitorResult
  | [], _ => none
  | (k, v) :: rest, url => if k = url then some v else cacheLookup rest url

/-- `updateCache` (lines 66-70): `resultCache[result.TargetURL] = result`,
overwriting any previous binding for that URL. -/
def cacheUpdate (cache : List (String × MonitorResult)) (r : MonitorResult) :
    List (String × MonitorResult) :=
  (r.targetURL, r) :: cache.filter (fun p => p.1 != r.targetURL)

/-- `GetCachedResult` (lines 51-63): a hit requires a stored result whose age
`time.Since(result.CheckedAt)` does not exceed the TTL. -/
def GetCachedResult (cacheTTL : Int) (now : Int)
    (cache : List (String × MonitorResult)) (targetURL : String) :
    Option MonitorResult :=
  match cacheLookup cache targetURL with
  | none => none
  | some result => if now - result.checkedAt > cacheTTL then none else some result

/-! ## Environment oracles for the probes -/

/-- Outcome of the single `net.DialTimeout` call a TCP probe attempt may make. -/
inductive DialOutcome
  | ok
  | timeout
  | failed (msg : String)
deriving Repr, DecidableEq

/-- Outcome of one HTTP exchange: the request build, the `client.Do` call, and
on success the response (status code, body read, TLS peer-certificate
expiry as nanoseconds until `NotAfter`). -/
inductive HTTPExchange
  | reqError
  | doTimeout
  | doError (msg : String)
  | response (statusCode : Int) (bodyErr : Bool) (body : String)
      (tlsCertNs : Option Int)
deriving Repr, DecidableEq

/-- The network environment one retry attempt observes. -/
structure ProbeWorld where
  dial : DialOutcome
  http : HTTPExchange
deriving Repr, DecidableEq

/-! ## Modelled Go `net` address parsing -/

/-- Index of the last occurrence of a character, if any. -/
def lastIdxOf (c : Char) : List Char → Option Nat
  | [] => none
  | x :: xs =>
    match lastIdxOf c xs with
    | some i => some (i + 1)
    | none => if x = c then some 0 else none

/-- Index of the first occurrence of a character, if any. -/
def idxOf (c : Char) : List Char → Option Nat
  | [] => none
  | x :: xs => if x = c then some 0 else (idxOf c xs).map (· + 1)

/-- Character membership as a Boolean. -/
def hasChar (c : Char) : List Char → Bool
  | [] => false
  | x :: xs => x = c || hasChar c xs

/-- Modelled from Go `net.SplitHostPort`: split at the last colon; a
non-bracketed host may not itself contain a colon, brackets outside an IPv6
literal are rejected, and a missing colon is a missing port. -/
def splitHostPort (hostport : String) : Except String (String × String) :=
  let cs := hostport.data
  match lastIdxOf ':' cs with
  | none => .error "missing port in address"
  | some i =>
    if cs.head? = some '[' then
      match idxOf ']' cs with
      | none => .error "missing close bracket in address"
      | some endIdx =>
        if endIdx + 1 = cs.length then .error "missing port in address"
        else if endIdx + 1 = i then
          if hasChar '[' (cs.drop 1) then .error "unexpected open bracket in address"
          else if hasChar ']' (cs.drop (endIdx + 1)) then
            .error "unexpected close bracket in address"
          else .ok (⟨(cs.drop 1).take (endIdx - 1)⟩, ⟨cs.drop (i + 1)⟩)
        else if cs.get? (endIdx + 1) = some ':' then .error "too many colons in address"
        else .error "missing port in address"
    else
      if hasChar ':' (cs.take i) then .error "too many colons in address"
      else if hasChar '[' cs then .error "unexpected open bracket in address"
      else if hasChar ']' cs then .error "unexpected close bracket in address"
      else .ok (⟨cs.take i⟩, ⟨cs.drop (i + 1)⟩)

/-- Decimal value of a digit string. -/
def natOfDigits (ds : List Char) : Nat :=
  ds.foldl (fun n c => n * 10 + (c.toNat - 48)) 0

/-- All characters are ASCII digits. -/
def allDigits (ds : List Char) : Bool :=
  ds.all fun c => c.isDigit

/-- Modelled from Go `net.LookupPort` for network `"tcp"`: a service string is
first parsed as an optionally signed decimal number, accepted when it lies in
`0..65535`; otherwise it is resolved against the system services database,
passed in here as the oracle `services` (service names never contain `/`,
which the theorems using this model state as a hypothesis). -/
def lookupPort (services : String → Option Nat) (service : String) : Option Nat :=
  let cs := service.data
  let signed : Bool × List Char :=
    match cs with
    | '+' :: rest => (false, rest)
    | '-' :: rest => (true, rest)
    | _ => (false, cs)
  if signed.2 ≠ [] ∧ allDigits signed.2 = true then
    let n : Int :=
      if signed.1 then -(natOfDigits signed.2 : Int) else (natOfDigits signed.2 : Int)
    if 0 ≤ n ∧ n ≤ 65535 then some n.toNat else none
  else
    services service

/-! ## The probes (part_001 lines 154-270) -/

/-- `checkTCP` (lines 155-189).  The returned triple is the Go
`(error, ErrorType)` pair (with `none` for a nil error), the result record,
and an instrumentation flag recording whether `net.DialTimeout` was reached.
Error message texts abbreviate the wrapped Go errors; the claims depend only
on the `ErrorType` classification. -/
def checkTCP (dial : DialOutcome) (services : String → Option Nat)
    (url : String) (result : MonitorResult) :
    Option (String × String) × MonitorResult × Bool :=
  let address := goTrim url "tcp://"
  if address = "" then
    (some ("无效的TCP地址，格式应为 tcp://ip:port", ErrorTypeInvalid), result, false)
  else
    match splitHostPort address with
    | .error e => (some ("解析TCP地址失败：" ++ e, ErrorTypeInvalid), result, false)
    | .ok hp =>
      match lookupPort services hp.2 with
      | none => (some ("无效的端口号：" ++ hp.2, ErrorTypeInvalid), result, false)
      | some _ =>
        match dial with
        | .timeout => (some ("TCP连接超时", ErrorTypeTimeout), result, true)
        | .failed msg => (some ("TCP连接失败：" ++ msg, ErrorTypeNetwork), result, true)
        | .ok => (none, { result with statusCode := 0 }, true)

/-- `days := int(expiry.Sub(time.Now()).Hours() / 24)` (line 248): the Go
float-to-int conversion truncates toward zero, so on exact arithmetic the day
count is the toward-zero division of the nanosecond duration by 24 hours. -/
def certDays (untilExpiryNs : Int) : Int :=
  untilExpiryNs.tdiv 86400000000000

/-- Lines 245-262: render the certificate-expiry description and, below 7
days, the advisory warning. -/
def applyCertInfo (untilExpiryNs : Int) (r : MonitorResult) : MonitorResult :=
  let days := certDays untilExpiryNs
  let r1 :=
    if 0 < days then { r with sslCertExpiry := "还有" ++ toString days ++ "天过期" }
    else if days = 0 then { r with sslCertExpiry := "今日过期" }
    else { r with sslCertExpiry := "已过期" ++ toString (-days) ++ "天" }
  if days < 7 then { r1 with warning := "SSL证书即将过期（剩余" ++ toString days ++ "天）" }
  else r1

/-- `checkHTTP` (lines 192-270).  The `url` parameter is carried for shape
fidelity; a `http.NewRequest` failure on a malformed URL is the oracle case
`reqError`.  Order of checks follows the source: transport errors, body read,
status-code recording, keyword match, TLS certificate info, status-code
validation. -/
def checkHTTP (exch : HTTPExchange) (url keyword : String) (result : MonitorResult) :
    Option (String × String) × MonitorResult :=
  match exch with
  | .reqError => (some ("创建HTTP请求失败", ErrorTypeInvalid), result)
  | .doTimeout => (some ("HTTP请求超时", ErrorTypeTimeout), result)
  | .doError msg =>
    if goContains msg "certificate" then
      (some ("SSL证书验证失败：" ++ msg, ErrorTypeSSL), result)
    else
      (some ("HTTP请求失败：" ++ msg, ErrorTypeNetwork), result)
  | .response statusCode bodyErr body tlsCertNs =>
    if bodyErr then (some ("读取响应体失败", ErrorTypeUnknown), result)
    else
      let r1 := { result with statusCode := statusCode }
      if keyword ≠ "" ∧ goContains body keyword = false then
        (some ("响应体未找到关键词：" ++ keyword, ErrorTypeKeyword),
          { r1 with keywordMatched := false })
      else
        let r2 := if keyword ≠ "" then { r1 with keywordMatched := true } else r1
        let r3 :=
          match tlsCertNs with
          | none => r2
          | some ns => applyCertInfo ns r2
        if statusCode < 200 ∨ 300 ≤ statusCode then
          (some ("HTTP状态码异常：" ++ toString statusCode, ErrorTypeHTTP), r3)
        else (none, r3)

/-! ## The orchestrator (`CheckTarget`, part_001 lines 92-152) -/

/-- The protocol dispatch inside the retry loop (lines 120-125): a URL whose
lowercasing starts with `tcp://` goes to the TCP probe, everything else to the
HTTP probe. -/
def dispatchProbe (world : Nat → ProbeWorld) (services : String → Option Nat)
    (target : MonitorTarget) (i : Nat) (r : MonitorResult) :
    Option (String × String) × MonitorResult :=
  if goStartsWith (goToLower target.url) "tcp://" then
    let o := checkTCP (world i).dial services target.url r
    (o.1, o.2.1)
  else
    checkHTTP (world i).http target.url target.keyword r

/-- The retry loop of `CheckTarget` (lines 113-146), unrolled on the number of
remaining iterations (`remaining = maxRetry - retry` at every call).  Returns
the final result record, the number of probe attempts performed, and the list
of back-off sleeps (`time.Sleep(backoff[retry])`) that were executed, in
order. -/
def retryLoop (probe : Nat → MonitorResult → Option (String × String) × MonitorResult)
    (dur : Nat → Int) (maxRetry : Nat) :
    Nat → Nat → MonitorResult → MonitorResult × Nat × List Int
  | _, 0, r => (r, 0, [])
  | retry, remaining + 1, r =>
    let att := probe retry r
    let r2 := { att.2 with responseTime := dur retry }
    match att.1 with
    | none => ({ r2 with status := "success", errorMsg := "", errorType := "" }, 1, [])
    | some pr =>
      if retry = maxRetry - 1 then
        ({ r2 with status := "failed", errorMsg := pr.1, errorType := pr.2 }, 1, [])
      else
        let rest := retryLoop probe dur maxRetry (retry + 1) remaining r2
        (rest.1, rest.2.1 + 1, backoffNs retry :: rest.2.2)

/-- What one `CheckTarget` call produces and does: the returned result, the
cache after the call, the number of probe attempts, and the back-off sleeps
performed. -/
structure CheckOutcome where
  result : MonitorResult
  cache : List (String × MonitorResult)
  probes : Nat
  sleeps : List Int
deriving Repr, DecidableEq

/-- `CheckTarget` (lines 92-152): cache lookup, result initialisation at the
current time, the retry loop with exponential back-off, and the final cache
update.  `world` and `dur` supply the per-attempt network outcomes and
measured attempt durations; `now` is the entry time. -/
def CheckTarget (cacheTTL : Int) (maxRetry : Nat) (services : String → Option Nat)
    (world : Nat → ProbeWorld) (dur : Nat → Int) (now : Int)
    (cache : List (String × MonitorResult)) (target : MonitorTarget) : CheckOutcome :=
  match GetCachedResult cacheTTL now cache target.url with
  | some cachedResult => ⟨cachedResult, cache, 0, []⟩
  | none =>
    let r0 : MonitorResult :=
      { targetURL := target.url, status := "", statusCode := 0, responseTime := 0,
        sslCertExpiry := "", keywordMatched := false, errorMsg := "", errorType := "",
        warning := "", checkedAt := now }
    let fin := retryLoop (dispatchProbe world services target) dur maxRetry 0 maxRetry r0
    ⟨fin.1, cacheUpdate cache fin.1, fin.2.1, fin.2.2⟩

/-! ## The admission controller (part_000)

The shared state a `ConcurrencyLimiter` protects: the token count of the
semaphore channel `sem`, the priority queue (abstracted to the multiset of
queued priorities), and the `closed` flag.  Each constructor of `LimStep` is
one mutex-protected (or, for `release`, channel-atomic) section of the
source. -/

structure LimiterState where
  semCount : Nat
  queue : List Nat
  closed : Bool
deriving Repr, DecidableEq

/-- Remove one maximal element (the `heap.Pop` of the max-heap). -/
def eraseMax (l : List Nat) : List Nat :=
  match l.max? with
  | none => l
  | some m => l.erase m

/-- Atomic transitions of the limiter with capacity `cap`:
* `enqueue` — lines 87-88, a caller pushes its task under the mutex;
* `grantSelf` — lines 91-97 when the popped maximum is the caller's own task:
  the wait loop has established `len(sem) < cap(sem)` and the caller sends
  one token into `sem`;
* `grantOther` — the same section when the popped maximum belongs to another
  caller: the token is still sent and the popped task pushed back (lines
  100-103), leaving the queue unchanged as a multiset;
* `release` — line 118, `<-cl.sem` receives one token (blocks when empty);
* `close` — lines 125-131. -/
inductive LimStep (cap : Nat) : LimiterState → LimiterState → Prop
  | enqueue (s : LimiterState) (p : Nat) (hopen : s.closed = false) :
      LimStep cap s { s with queue := p :: s.queue }
  | grantSelf (s : LimiterState) (hopen : s.closed = false)
      (hroom : s.semCount < cap) (hq : s.queue ≠ []) :
      LimStep cap s { s with semCount := s.semCount + 1, queue := eraseMax s.queue }
  | grantOther (s : LimiterState) (hopen : s.closed = false)
      (hroom : s.semCount < cap) (hq : s.queue ≠ []) :
      LimStep cap s { s with semCount := s.semCount + 1 }
  | release (s : LimiterState) (hheld : 0 < s.semCount) :
      LimStep cap s { s with semCount := s.semCount - 1 }
  | close (s : LimiterState) :
      LimStep cap s { s with closed := true }

/-- `NewConcurrencyLimiter` (lines 67-75): empty channel, empty heap, open. -/
def limInit : LimiterState := ⟨0, [], false⟩

/-- States reachable from a fresh limiter. -/
def LimReachable (cap : Nat) : LimiterState → Prop :=
  Relation.ReflTransGen (LimStep cap) limInit

/-- How an `AcquireWithPriority` invocation can end for its caller.  The Go
function returns nothing and has no error result, so a detectable failure
outcome does not exist among the fates. -/
inductive AcquireFate
  | granted
  | blocked
  | panicked (msg : String)
deriving Repr, DecidableEq

/-- The fate of an `AcquireWithPriority` caller once the limiter is closed
(lines 78-106 against `Close`, lines 125-131).  A fresh call fails the
`closed` check and panics (line 83).  A caller already parked in
`cond.Wait` is woken by `Close`'s `Broadcast`; it re-evaluates the wait
condition: while `sem` is still full it parks again, and once a slot is free
it pops a task and executes `cl.sem <- struct{}{}` on the closed channel,
which in Go panics with "send on closed channel". -/
def acquireAfterClose (fresh : Bool) (semLen semCap : Nat) : AcquireFate :=
  if fresh then .panicked "ConcurrencyLimiter已关闭"
  else if semLen = semCap then .blocked
  else .panicked "send on closed channel"

/-- How the tail of `AcquireWithPriority` (lines 96-106) resolves for a woken
caller. -/
inductive ResumeOutcome
  | granted
  | deadlocked
  | loopedBack
deriving Repr, DecidableEq

/-- Lines 96-106: the woken caller pops the maximum task and takes the slot;
when that task is not its own it pushes the task back and recursively calls
`cl.AcquireWithPriority(task)`.  The recursive call begins with
`cl.mu.Lock()` while the outer invocation still holds `cl.mu` (its unlock is
deferred to a return that has not happened), and Go's `sync.Mutex` is not
reentrant, so the caller blocks forever.  `mutexHeldBySelf` records whether
the mutex is held by the calling goroutine at the recursion site; in the
source it always is. -/
def acquireResume (poppedIsOwn : Bool) (mutexHeldBySelf : Bool) : ResumeOutcome :=
  if poppedIsOwn then .granted
  else if mutexHeldBySelf then .deadlocked
  else .loopedBack

/-! ## Helper lemmas on the retry loop -/

/-- Unfolding of the loop with no iterations left. -/
theorem retryLoop_zero
    (probe : Nat → MonitorResult → Option (String × String) × MonitorResult)
    (dur : Nat → Int) (maxRetry retry : Nat) (r : MonitorResult) :
    retryLoop probe dur maxRetry retry 0 r = (r, 0, []) := rfl

/-- One-step unfolding of the loop. -/
theorem retryLoop_step
    (probe : Nat → MonitorResult → Option (String × String) × MonitorResult)
    (dur : Nat → Int) (maxRetry retry k : Nat) (r : MonitorResult) :
    retryLoop probe dur maxRetry retry (k + 1) r =
      match (probe retry r).1 with
      | none =>
        ({ (probe retry r).2 with
           responseTime := dur retry,
           status := "success", errorMsg := "", errorType := "" }, 1, [])
      | some pr =>
        if retry = maxRetry - 1 then
          ({ (probe retry r).2 with
             responseTime := dur retry,
             status := "failed", errorMsg := pr.1, errorType := pr.2 }, 1, [])
        else
          ((retryLoop probe dur maxRetry (retry + 1) k
              { (probe retry r).2 with responseTime := dur retry }).1,
            (retryLoop probe dur maxRetry (retry + 1) k
              { (probe retry r).2 with responseTime := dur retry }).2.1 + 1,
            backoffNs retry ::
              (retryLoop probe dur maxRetry (retry + 1) k
                { (probe retry r).2 with responseTime := dur retry }).2.2) := rfl

/-- With a probe that fails on every attempt, the loop performs one attempt
per remaining iteration and sleeps `backoff[retry]` after each non-final
one. -/
theorem retryLoop_allFail
    (probe : Nat → MonitorResult → Option (String × String) × MonitorResult)
    (dur : Nat → Int) (maxRetry : Nat)
    (hfail : ∀ i r, ((probe i r).1).isSome = true) :
    ∀ (remaining retry : Nat) (r : MonitorResult), retry + remaining = maxRetry →
      (retryLoop probe dur maxRetry retry remaining r).2.1 = remaining ∧
      (retryLoop probe dur maxRetry retry remaining r).2.2 =
        (List.range' retry (remaining - 1)).map backoffNs := by
  intro remaining
  induction remaining with
  | zero =>
    intro retry r h
    simp [retryLoop_zero]
  | succ k ih =>
    intro retry r h
    obtain ⟨pr, hpr⟩ := Option.isSome_iff_exists.mp (hfail retry r)
    simp only [retryLoop_step probe dur maxRetry retry k r, hpr]
    by_cases hlast : retry = maxRetry - 1
    · have hk : k = 0 := by omega
      subst hk
      rw [if_pos hlast]
      simp
    · obtain ⟨k1, rfl⟩ : ∃ k1, k = k1 + 1 := ⟨k - 1, by omega⟩
      have ihr := ih (retry + 1)
        ({ (probe retry r).2 with responseTime := dur retry }) (by omega)
      rw [if_neg hlast]
      simp [ihr.1, ihr.2, List.range'_succ]

/-- At least one attempt happens whenever an iteration remains. -/
theorem retryLoop_pos
    (probe : Nat → MonitorResult → Option (String × String) × MonitorResult)
    (dur : Nat → Int) (maxRetry remaining retry : Nat) (r : MonitorResult)
    (h : 1 ≤ remaining) :
    1 ≤ (retryLoop probe dur maxRetry retry remaining r).2.1 := by
  obtain ⟨k, rfl⟩ : ∃ k, remaining = k + 1 := ⟨remaining - 1, by omega⟩
  cases hpr : (probe retry r).1 with
  | none => simp [retryLoop_step probe dur maxRetry retry k r, hpr]
  | some pr =>
    simp only [retryLoop_step probe dur maxRetry retry k r, hpr]
    by_cases hlast : retry = maxRetry - 1
    · rw [if_pos hlast]
    · rw [if_neg hlast]
      simp

/-- The `errorType` / `status` invariant produced by the loop body: the
success branch clears both, the final-failure branch sets both, and a probe
failure always carries a non-empty kind. -/
theorem retryLoop_inv
    (probe : Nat → MonitorResult → Option (String × String) × MonitorResult)
    (dur : Nat → Int) (maxRetry : Nat)
    (hkind : ∀ i r p, (probe i r).1 = some p → p.2 ≠ "") :
    ∀ (remaining retry : Nat) (r : MonitorResult),
      retry + remaining = maxRetry → 1 ≤ remaining →
      (((retryLoop probe dur maxRetry retry remaining r).1).errorType = "" ↔
        ((retryLoop probe dur maxRetry retry remaining r).1).status = "success") := by
  intro remaining
  induction remaining with
  | zero =>
    intro retry r h h1
    omega
  | succ k ih =>
    intro retry r h h1
    cases hpr : (probe retry r).1 with
    | none => simp [retryLoop_step probe dur maxRetry retry k r, hpr]
    | some pr =>
      simp only [retryLoop_step probe dur maxRetry retry k r, hpr]
      by_cases hlast : retry = maxRetry - 1
      · have het := hkind retry r pr hpr
        rw [if_pos hlast]
        simp [het]
      · have hk : 1 ≤ k := by omega
        have ihr := ih (retry + 1)
          ({ (probe retry r).2 with responseTime := dur retry }) (by omega) hk
        rw [if_neg hlast]
        exact ihr

/-- The loop never changes the `targetURL` field when the probe does not. -/
theorem retryLoop_url
    (probe : Nat → MonitorResult → Option (String × String) × MonitorResult)
    (dur : Nat → Int) (maxRetry : Nat)
    (hurl : ∀ i r, (((probe i r).2)).targetURL = r.targetURL) :
    ∀ (remaining retry : Nat) (r : MonitorResult),
      (((retryLoop probe dur maxRetry retry remaining r).1)).targetURL = r.targetURL := by
  intro remaining
  induction remaining with
  | zero =>
    intro retry r
    simp [retryLoop_zero]
  | succ k ih =>
    intro retry r
    cases hpr : (probe retry r).1 with
    | none => simp [retryLoop_step probe dur maxRetry retry k r, hpr, hurl retry r]
    | some pr =>
      simp only [retryLoop_step probe dur maxRetry retry k r, hpr]
      by_cases hlast : retry = maxRetry - 1
      · rw [if_pos hlast]
        simp [hurl retry r]
      · have ihr := ih (retry + 1)
          ({ (probe retry r).2 with responseTime := dur retry })
        rw [if_neg hlast]
        simpa [hurl retry r] using ihr

/-! ## Helper lemmas on the cache -/

/-- Filtering out one key leaves lookups of other keys unchanged. -/
theorem cacheLookup_filterNe (cache : List (String × MonitorResult))
    (url u : String) (h : u ≠ url) :
    cacheLookup (cache.filter fun p => p.1 != url) u = cacheLookup cache u := by
  induction cache with
  | nil => rfl
  | cons kv rest ih =>
    by_cases hk : kv.1 = url
    · have hku : ¬ kv.1 = u := by
        rw [hk]
        exact fun he => h he.symm
      simp [List.filter_cons, hk, cacheLookup, hku, ih, h, Ne.symm h]
    · by_cases hku : kv.1 = u <;>
        simp [List.filter_cons, hk, cacheLookup, hku, ih, h, Ne.symm h]

/-- `updateCache` stores the result under its own URL. -/
theorem cacheUpdate_lookup_self (cache : List (String × MonitorResult))
    (r : MonitorResult) :
    cacheLookup (cacheUpdate cache r) r.targetURL = some r := by
  simp [cacheUpdate, cacheLookup]

/-- `updateCache` leaves every other key alone. -/
theorem cacheUpdate_lookup_ne (cache : List (String × MonitorResult))
    (r : MonitorResult) (u : String) (h : u ≠ r.targetURL) :
    cacheLookup (cacheUpdate cache r) u = cacheLookup cache u := by
  have hne : ¬ r.targetURL = u := fun he => h he.symm
  have hfil := cacheLookup_filterNe cache r.targetURL u h
  simpa [cacheUpdate, cacheLookup, hne] using hfil

/-- A fresh (within TTL) cache entry is a `GetCachedResult` hit. -/
theorem getCached_hit (ttl now : Int) (cache : List (String × MonitorResult))
    (url : String) (r : MonitorResult) (h : cacheLookup cache url = some r)
    (hts : ¬ now - r.checkedAt > ttl) :
    GetCachedResult ttl now cache url = some r := by
  simp [GetCachedResult, h, hts]

/-- An expired cache entry is a `GetCachedResult` miss. -/
theorem getCached_expired (ttl now : Int) (cache : List (String × MonitorResult))
    (url : String) (r : MonitorResult) (h : cacheLookup cache url = some r)
    (hts : now - r.checkedAt > ttl) :
    GetCachedResult ttl now cache url = none := by
  simp [GetCachedResult, h, hts]

/-- A `GetCachedResult` hit comes from the cache map. -/
theorem getCached_mem (ttl now : Int) (cache : List (String × MonitorResult))
    (url : String) (r : MonitorResult)
    (h : GetCachedResult ttl now cache url = some r) :
    cacheLookup cache url = some r := by
  unfold GetCachedResult at h
  cases hl : cacheLookup cache url with
  | none => simp [hl] at h
  | some r0 =>
    rw [hl] at h
    by_cases hts : now - r0.checkedAt > ttl <;> simp [hts] at h <;> simp [h]

/-! ## Helper lemmas on the probes -/

/-- Certificate post-processing touches only `sslCertExpiry` and `warning`:
`targetURL` survives. -/
theorem applyCertInfo_url (ns : Int) (r : MonitorResult) :
    (applyCertInfo ns r).targetURL = r.targetURL := by
  unfold applyCertInfo
  dsimp only
  split_ifs <;> simp

/-- Certificate post-processing leaves `status` alone. -/
theorem applyCertInfo_status (ns : Int) (r : MonitorResult) :
    (applyCertInfo ns r).status = r.status := by
  unfold applyCertInfo
  dsimp only
  split_ifs <;> simp

/-- Certificate post-processing leaves `errorType` alone. -/
theorem applyCertInfo_errorType (ns : Int) (r : MonitorResult) :
    (applyCertInfo ns r).errorType = r.errorType := by
  unfold applyCertInfo
  dsimp only
  split_ifs <;> simp

/-- A failing TCP attempt always carries a non-empty error kind. -/
theorem checkTCP_kind (dial : DialOutcome) (services : String → Option Nat)
    (url : String) (r : MonitorResult) (p : String × String)
    (h : (checkTCP dial services url r).1 = some p) : p.2 ≠ "" := by
  unfold checkTCP at h
  dsimp only at h
  by_cases ha : goTrim url "tcp://" = ""
  · rw [if_pos ha] at h
    injection h with h2
    subst h2
    show ErrorTypeInvalid ≠ ""
    decide
  · rw [if_neg ha] at h
    cases hsp : splitHostPort (goTrim url "tcp://") with
    | error e =>
      rw [hsp] at h
      dsimp only at h
      injection h with h2
      subst h2
      show ErrorTypeInvalid ≠ ""
      decide
    | ok hp =>
      rw [hsp] at h
      dsimp only at h
      cases hlp : lookupPort services hp.2 with
      | none =>
        rw [hlp] at h
        dsimp only at h
        injection h with h2
        subst h2
        show ErrorTypeInvalid ≠ ""
        decide
      | some v =>
        rw [hlp] at h
        dsimp only at h
        cases dial with
        | ok => exact Option.noConfusion h
        | timeout =>
          injection h with h2
          subst h2
          show ErrorTypeTimeout ≠ ""
          decide
        | failed msg =>
          injection h with h2
          subst h2
          show ErrorTypeNetwork ≠ ""
          decide

/-- A failing HTTP attempt always carries a non-empty error kind. -/
theorem checkHTTP_kind (exch : HTTPExchange) (url keyword : String)
    (r : MonitorResult) (p : String × String)
    (h : (checkHTTP exch url keyword r).1 = some p) : p.2 ≠ "" := by
  unfold checkHTTP at h
  cases exch with
  | reqError =>
    injection h with h2
    subst h2
    show ErrorTypeInvalid ≠ ""
    decide
  | doTimeout =>
    injection h with h2
    subst h2
    show ErrorTypeTimeout ≠ ""
    decide
  | doError msg =>
    dsimp only at h
    by_cases hc : goContains msg "certificate" = true
    · rw [if_pos hc] at h
      injection h with h2
      subst h2
      show ErrorTypeSSL ≠ ""
      decide
    · rw [if_neg hc] at h
      injection h with h2
      subst h2
      show ErrorTypeNetwork ≠ ""
      decide
  | response sc be body cert =>
    dsimp only at h
    by_cases hb : be = true
    · rw [if_pos hb] at h
      injection h with h2
      subst h2
      show ErrorTypeUnknown ≠ ""
      decide
    · rw [if_neg hb] at h
      by_cases hkw : keyword ≠ "" ∧ goContains body keyword = false
      · rw [if_pos hkw] at h
        injection h with h2
        subst h2
        show ErrorTypeKeyword ≠ ""
        decide
      · rw [if_neg hkw] at h
        by_cases hsc : sc < 200 ∨ 300 ≤ sc
        · rw [if_pos hsc] at h
          injection h with h2
          subst h2
          show ErrorTypeHTTP ≠ ""
          decide
        · rw [if_neg hsc] at h
          exact Option.noConfusion h

/-- TCP probing never rewrites `targetURL`. -/
theorem checkTCP_url (dial : DialOutcome) (services : String → Option Nat)
    (url : String) (r : MonitorResult) :
    ((checkTCP dial services url r).2.1).targetURL = r.targetURL := by
  unfold checkTCP
  dsimp only
  by_cases ha : goTrim url "tcp://" = ""
  · rw [if_pos ha]
  · rw [if_neg ha]
    cases hsp : splitHostPort (goTrim url "tcp://") with
    | error e => rfl
    | ok hp =>
      dsimp only
      cases hlp : lookupPort services hp.2 with
      | none => rfl
      | some v => cases dial <;> rfl

/-- HTTP probing never rewrites `targetURL`. -/
theorem checkHTTP_url (exch : HTTPExchange) (url keyword : String)
    (r : MonitorResult) :
    ((checkHTTP exch url keyword r).2).targetURL = r.targetURL := by
  unfold checkHTTP
  cases exch with
  | reqError => rfl
  | doTimeout => rfl
  | doError msg =>
    dsimp only
    split_ifs <;> rfl
  | response sc be body cert =>
    dsimp only
    by_cases hb : be = true
    · rw [if_pos hb]
    · rw [if_neg hb]
      by_cases hkw : keyword ≠ "" ∧ goContains body keyword = false
      · rw [if_pos hkw]
      · rw [if_neg hkw]
        cases cert with
        | none => split_ifs <;> rfl
        | some ns => split_ifs <;> simp [applyCertInfo_url]

/-- The dispatched probe always carries a non-empty kind on failure. -/
theorem dispatchProbe_kind (world : Nat → ProbeWorld)
    (services : String → Option Nat) (target : MonitorTarget) :
    ∀ (i : Nat) (r : MonitorResult) (p : String × String),
      (dispatchProbe world services target i r).1 = some p → p.2 ≠ "" := by
  intro i r p h
  unfold dispatchProbe at h
  by_cases hd : goStartsWith (goToLower target.url) "tcp://" = true
  · rw [if_pos hd] at h
    exact checkTCP_kind (world i).dial services target.url r p h
  · rw [if_neg hd] at h
    exact checkHTTP_kind (world i).http target.url target.keyword r p h

/-- The dispatched probe never rewrites `targetURL`. -/
theorem dispatchProbe_url (world : Nat → ProbeWorld)
    (services : String → Option Nat) (target : MonitorTarget) :
    ∀ (i : Nat) (r : MonitorResult),
      ((dispatchProbe world services target i r).2).targetURL = r.targetURL := by
  intro i r
  unfold dispatchProbe
  by_cases hd : goStartsWith (goToLower target.url) "tcp://" = true
  · rw [if_pos hd]
    exact checkTCP_url (world i).dial services target.url r
  · rw [if_neg hd]
    exact checkHTTP_url (world i).http target.url target.keyword r

/-- The exact value of the backoff slice below the overflow point. -/
theorem backoffNs_eq_pow (i : Nat) (h : i ≤ 36) :
    backoffNs i = 100 * msNs * 2 ^ i ∧ 0 ≤ backoffNs i := by
  interval_cases i <;> decide

/-! ## Concrete instances used by witnesses and counterexamples -/

/-- A plain HTTP monitoring target. -/
def exTarget : MonitorTarget := ⟨"http://x", "", true, "normal"⟩

/-- An environment in which every HTTP exchange times out. -/
def exWorldFail : Nat → ProbeWorld := fun _ => ⟨.ok, .doTimeout⟩

/-- Constant measured attempt duration. -/
def exDur : Nat → Int := fun _ => 5

/-- An empty services database. -/
def exNoServices : String → Option Nat := fun _ => none

/-- A blank result record. -/
def exR0 : MonitorResult := ⟨"http://x", "", 0, 0, "", false, "", "", "", 0⟩

/-- A cached success result for `exTarget`. -/
def exCached : MonitorResult := ⟨"http://x", "success", 200, 5, "", false, "", "", "", 0⟩

/-! ## Unfoldings of CheckTarget -/

/-- A cache hit returns the stored result and does nothing else. -/
theorem CheckTarget_hit (cacheTTL : Int) (maxRetry : Nat)
    (services : String → Option Nat) (world : Nat → ProbeWorld) (dur : Nat → Int)
    (now : Int) (cache : List (String × MonitorResult)) (target : MonitorTarget)
    (rc : MonitorResult)
    (hhit : GetCachedResult cacheTTL now cache target.url = some rc) :
    CheckTarget cacheTTL maxRetry services world dur now cache target =
      ⟨rc, cache, 0, []⟩ := by
  simp only [CheckTarget, hhit]

/-- A cache miss runs the retry loop on the freshly initialised result and
stores the outcome. -/
theorem CheckTarget_miss (cacheTTL : Int) (maxRetry : Nat)
    (services : String → Option Nat) (world : Nat → ProbeWorld) (dur : Nat → Int)
    (now : Int) (cache : List (String × MonitorResult)) (target : MonitorTarget)
    (hmiss : GetCachedResult cacheTTL now cache target.url = none) :
    CheckTarget cacheTTL maxRetry services world dur now cache target =
      ⟨(retryLoop (dispatchProbe world services target) dur maxRetry 0 maxRetry
          { targetURL := target.url, status := "", statusCode := 0, responseTime := 0,
            sslCertExpiry := "", keywordMatched := false, errorMsg := "", errorType := "",
            warning := "", checkedAt := now }).1,
        cacheUpdate cache
          (retryLoop (dispatchProbe world services target) dur maxRetry 0 maxRetry
            { targetURL := target.url, status := "", statusCode := 0, responseTime := 0,
              sslCertExpiry := "", keywordMatched := false, errorMsg := "", errorType := "",
              warning := "", checkedAt := now }).1,
        (retryLoop (dispatchProbe world services target) dur maxRetry 0 maxRetry
          { targetURL := target.url, status := "", statusCode := 0, responseTime := 0,
            sslCertExpiry := "", keywordMatched := false, errorMsg := "", errorType := "",
            warning := "", checkedAt := now }).2.1,
        (retryLoop (dispatchProbe world services target) dur maxRetry 0 maxRetry
          { targetURL := target.url, status := "", statusCode := 0, responseTime := 0,
            sslCertExpiry := "", keywordMatched := false, errorMsg := "", errorType := "",
            warning := "", checkedAt := now }).2.2⟩ := by
  simp only [CheckTarget, hmiss]

/-! ## C7: the concurrency bound -/

/-- Claim C7: for all sequences of concurrent Acquire and Release calls on a
controller created with capacity N, the number of tasks simultaneously holding
an admission slot never exceeds N.  Slot holders are exactly the tokens in the
`sem` channel: a token enters only in the `grant` steps, which the wait loop
guards with `len(sem) < cap(sem)` under the mutex, so every reachable state
keeps `semCount ≤ cap`. -/
theorem semCount_le_capacity (cap : Nat) (s : LimiterState)
    (h : LimReachable cap s) : s.semCount ≤ cap := by
  induction h with
  | refl => simp [limInit]
  | tail _ hstep ih =>
    cases hstep with
    | enqueue p hopen => exact ih
    | grantSelf hopen hroom hq => simpa using hroom
    | grantOther hopen hroom hq => simpa using hroom
    | release hheld => simpa using Nat.le_trans (Nat.sub_le _ _) ih
    | close => exact ih

/-- Witness for C7: a state with one held slot reached by one enqueue and one
grant in a capacity-2 limiter. -/
theorem semCount_le_capacity_witness :
    (⟨1, [], false⟩ : LimiterState).semCount ≤ 2 := by
  apply semCount_le_capacity 2
  have h1 : LimStep 2 limInit ⟨0, [5], false⟩ := LimStep.enqueue limInit 5 rfl
  have h2 : LimStep 2 ⟨0, [5], false⟩ ⟨1, [], false⟩ := by
    have h := @LimStep.grantSelf 2 ⟨0, [5], false⟩ rfl (by decide) (by decide)
    simpa [eraseMax] using h
  exact Relation.ReflTransGen.tail (Relation.ReflTransGen.tail Relation.ReflTransGen.refl h1) h2

/-! ## C1: behaviour of Acquire after Close -/

/-- Claim C1 (code bug): the claim demands that after `Close` every blocked and
every future `Acquire`/`AcquireWithPriority` call fail with an explicit
"controller closed" outcome the caller can detect.  The source instead panics:
a fresh call hits `panic("ConcurrencyLimiter已关闭")` (line 83), and a blocked
caller woken by `Close`'s broadcast either parks again (while `sem` is full)
or panics sending on the closed `sem` channel; no fate of a post-close call is
a detectable failure value, because `AcquireWithPriority` has no error
result. -/
theorem acquire_after_close_aborts :
    acquireAfterClose true 0 1 = AcquireFate.panicked "ConcurrencyLimiter已关闭" ∧
    acquireAfterClose false 0 1 = AcquireFate.panicked "send on closed channel" ∧
    acquireAfterClose false 1 1 = AcquireFate.blocked ∧
    ∀ (fresh : Bool) (semLen semCap : Nat),
      acquireAfterClose fresh semLen semCap ≠ AcquireFate.granted := by
  refine ⟨rfl, rfl, rfl, ?_⟩
  intro fresh semLen semCap
  unfold acquireAfterClose
  split
  · simp
  · split <;> simp

/-! ## C9: the preempted-waiter retry path -/

/-- Claim C9 (code bug): the claim demands a bounded retry loop for a woken
caller whose popped maximum-priority task is not its own.  The source instead
recurses into `AcquireWithPriority` while still holding `cl.mu` (the unlock is
deferred), and Go's `sync.Mutex` is not reentrant, so the preempted caller
deadlocks: it neither loops nor makes progress. -/
theorem acquire_preempt_recursion_deadlocks :
    acquireResume false true = ResumeOutcome.deadlocked ∧
    acquireResume true true = ResumeOutcome.granted ∧
    ∀ poppedIsOwn : Bool, acquireResume poppedIsOwn true ≠ ResumeOutcome.loopedBack := by
  decide

/-! ## C2: retry count and backoff schedule -/

/-- Claim C2 (amended): on a cache miss with a probe failing on every attempt,
`CheckTarget` performs exactly `maxRetry` attempts; the sleeps executed are
exactly `backoff[0], ..., backoff[maxRetry-2]` in order (one after each failed
non-final attempt, none before the first attempt, none after the final one),
and `backoff[i]` equals `100ms * 2^i` for every `i ≤ 36` — beyond that the Go
`int64` computation wraps, so the literal `100ms * 2^i` reading holds only in
that range.  For `maxRetry = 3` this gives 3 attempts and sleeps of
100ms, 200ms (values in nanoseconds). -/
theorem checkTarget_backoff_sequence (cacheTTL : Int) (maxRetry : Nat)
    (services : String → Option Nat) (world : Nat → ProbeWorld) (dur : Nat → Int)
    (now : Int) (cache : List (String × MonitorResult)) (target : MonitorTarget)
    (hmiss : GetCachedResult cacheTTL now cache target.url = none)
    (hfail : ∀ i r, ((dispatchProbe world services target i r).1).isSome = true) :
    (CheckTarget cacheTTL maxRetry services world dur now cache target).probes =
      maxRetry ∧
    (CheckTarget cacheTTL maxRetry services world dur now cache target).sleeps =
      (List.range (maxRetry - 1)).map backoffNs ∧
    (∀ i, i ≤ 36 → backoffNs i = 100 * msNs * 2 ^ i) ∧
    (maxRetry = 3 →
      (CheckTarget cacheTTL maxRetry services world dur now cache target).probes = 3 ∧
      (CheckTarget cacheTTL maxRetry services world dur now cache target).sleeps =
        [100000000, 200000000]) := by
  have hrun := retryLoop_allFail (dispatchProbe world services target) dur maxRetry hfail
    maxRetry 0
    { targetURL := target.url, status := "", statusCode := 0, responseTime := 0,
      sslCertExpiry := "", keywordMatched := false, errorMsg := "", errorType := "",
      warning := "", checkedAt := now } (by omega)
  rw [CheckTarget_miss cacheTTL maxRetry services world dur now cache target hmiss]
  refine ⟨hrun.1, ?_, ?_, ?_⟩
  · rw [List.range_eq_range']
    exact hrun.2
  · intro i hi
    exact (backoffNs_eq_pow i hi).1
  · intro h3
    subst h3
    refine ⟨hrun.1, ?_⟩
    rw [hrun.2]
    show List.map backoffNs (List.range' 0 (3 - 1)) = [100000000, 200000000]
    decide

/-- Witness for C2 at `maxRetry = 3` with an always-timing-out HTTP target and
an empty cache: exactly 3 attempts, sleeps 100ms then 200ms. -/
theorem checkTarget_backoff_sequence_witness :
    (CheckTarget 30000000000 3 exNoServices exWorldFail exDur 0 [] exTarget).probes = 3 ∧
    (CheckTarget 30000000000 3 exNoServices exWorldFail exDur 0 [] exTarget).sleeps =
      [100000000, 200000000] :=
  (checkTarget_backoff_sequence 30000000000 3 exNoServices exWorldFail exDur 0 []
    exTarget rfl (fun i r => rfl)).2.2.2 rfl

/-- Counterexample for C2 as stated: the sleep inserted after failed non-final
attempt 37 is not `100ms * 2^37` — the `int64` multiplication wraps to a
negative duration. -/
theorem checkTarget_backoff_pow_cex :
    (CheckTarget 30000000000 39 exNoServices exWorldFail exDur 0 [] exTarget).sleeps.get? 37 =
      some (-4702848726509551616) ∧
    (-4702848726509551616 : Int) ≠ 100 * msNs * 2 ^ 37 := by
  constructor
  · decide
  · decide

/-! ## C8: backoff overflow -/

/-- Claim C8 (amended): below the overflow point (`i ≤ 36`) every backoff
interval is non-negative and equals `100ms * 2^i`; the code imposes no cap, so
this range is where the claimed properties actually hold. -/
theorem backoff_no_cap (i : Nat) (h : i ≤ 36) :
    0 ≤ backoffNs i ∧ backoffNs i = 100 * msNs * 2 ^ i :=
  ⟨(backoffNs_eq_pow i h).2, (backoffNs_eq_pow i h).1⟩

/-- Witness for C8 at the largest non-overflowing index. -/
theorem backoff_no_cap_witness :
    0 ≤ backoffNs 36 ∧ backoffNs 36 = 100 * msNs * 2 ^ 36 :=
  backoff_no_cap 36 (by decide)

/-- Counterexample for C8 as stated: `backoff[37]` overflows `int64` and is
negative, so the intervals are neither capped nor always non-negative. -/
theorem backoff_overflow_cex :
    backoffNs 37 = -4702848726509551616 ∧ backoffNs 37 < 0 := by
  constructor
  · decide
  · decide

/-! ## C3: cache semantics -/

/-- Claim C3: a call finding a cache entry with `now - checkedAt ≤ cacheTTL`
returns that result unchanged with no probe, no sleep and no cache write; a
call finding only an expired entry probes anew (when at least one retry is
configured); and on every non-hit call the final result is stored in the cache
under the target URL, overwriting any previous entry for it and leaving every
other key unchanged. -/
theorem checkTarget_cache_semantics (cacheTTL : Int) (maxRetry : Nat)
    (services : String → Option Nat) (world : Nat → ProbeWorld) (dur : Nat → Int)
    (now : Int) (cache : List (String × MonitorResult)) (target : MonitorTarget) :
    (∀ rc, cacheLookup cache target.url = some rc → ¬ now - rc.checkedAt > cacheTTL →
      CheckTarget cacheTTL maxRetry services world dur now cache target =
        ⟨rc, cache, 0, []⟩) ∧
    (∀ rc, cacheLookup cache target.url = some rc → now - rc.checkedAt > cacheTTL →
      1 ≤ maxRetry →
      1 ≤ (CheckTarget cacheTTL maxRetry services world dur now cache target).probes) ∧
    (GetCachedResult cacheTTL now cache target.url = none →
      cacheLookup
          (CheckTarget cacheTTL maxRetry services world dur now cache target).cache
          target.url =
        some (CheckTarget cacheTTL maxRetry services world dur now cache target).result ∧
      ∀ u, u ≠ target.url →
        cacheLookup
            (CheckTarget cacheTTL maxRetry services world dur now cache target).cache u =
          cacheLookup cache u) := by
  refine ⟨?_, ?_, ?_⟩
  · intro rc hl hts
    exact CheckTarget_hit cacheTTL maxRetry services world dur now cache target rc
      (getCached_hit cacheTTL now cache target.url rc hl hts)
  · intro rc hl hts hmax
    rw [CheckTarget_miss cacheTTL maxRetry services world dur now cache target
      (getCached_expired cacheTTL now cache target.url rc hl hts)]
    exact retryLoop_pos _ dur maxRetry maxRetry 0 _ hmax
  · intro hmiss
    rw [CheckTarget_miss cacheTTL maxRetry services world dur now cache target hmiss]
    have hurl : ((retryLoop (dispatchProbe world services target) dur maxRetry 0 maxRetry
        { targetURL := target.url, status := "", statusCode := 0, responseTime := 0,
          sslCertExpiry := "", keywordMatched := false, errorMsg := "", errorType := "",
          warning := "", checkedAt := now }).1).targetURL = target.url :=
      retryLoop_url _ dur maxRetry (dispatchProbe_url world services target) maxRetry 0 _
    constructor
    · have hself := cacheUpdate_lookup_self cache
        ((retryLoop (dispatchProbe world services target) dur maxRetry 0 maxRetry
          { targetURL := target.url, status := "", statusCode := 0, responseTime := 0,
            sslCertExpiry := "", keywordMatched := false, errorMsg := "", errorType := "",
            warning := "", checkedAt := now }).1)
      rw [hurl] at hself
      exact hself
    · intro u hu
      refine cacheUpdate_lookup_ne cache _ u ?_
      rw [hurl]
      exact hu

/-- Witness for C3: a hit within TTL is returned as-is with no side effects,
and after expiry the call probes again. -/
theorem checkTarget_cache_semantics_witness :
    CheckTarget 30000000000 3 exNoServices exWorldFail exDur 10000000000
        [("http://x", exCached)] exTarget =
      ⟨exCached, [("http://x", exCached)], 0, []⟩ ∧
    1 ≤ (CheckTarget 30000000000 3 exNoServices exWorldFail exDur 50000000000
        [("http://x", exCached)] exTarget).probes := by
  constructor
  · exact (checkTarget_cache_semantics 30000000000 3 exNoServices exWorldFail exDur
      10000000000 [("http://x", exCached)] exTarget).1 exCached (by decide) (by decide)
  · exact (checkTarget_cache_semantics 30000000000 3 exNoServices exWorldFail exDur
      50000000000 [("http://x", exCached)] exTarget).2.1 exCached (by decide) (by decide)
      (by decide)

/-! ## C5: errorKind empty iff success -/

/-- Counterexample for C5 as stated: with `maxRetry = 0` the retry loop never
runs, so the cached and returned result has empty `errorType` while its
`status` is the zero value `""`, not `"success"` — the equivalence fails. -/
theorem errorType_iff_success_cex :
    (CheckTarget 30000000000 0 exNoServices exWorldFail exDur 0 [] exTarget).result.errorType =
      "" ∧
    (CheckTarget 30000000000 0 exNoServices exWorldFail exDur 0 [] exTarget).result.status ≠
      "success" := by
  constructor
  · decide
  · decide

/-- Claim C5 (amended): with at least one configured retry, every result
`CheckTarget` returns — and every result it leaves in the cache, provided the
existing cache entries already satisfy the invariant — has empty `errorType`
exactly when its `status` is `"success"`.  For `maxRetry = 0` the invariant
fails (see the counterexample), so the claim needs `maxRetry ≥ 1`. -/
theorem errorType_empty_iff_success (cacheTTL : Int) (maxRetry : Nat)
    (services : String → Option Nat) (world : Nat → ProbeWorld) (dur : Nat → Int)
    (now : Int) (cache : List (String × MonitorResult)) (target : MonitorTarget)
    (hmax : 1 ≤ maxRetry)
    (hcache : ∀ u rc, cacheLookup cache u = some rc →
      (rc.errorType = "" ↔ rc.status = "success")) :
    ((CheckTarget cacheTTL maxRetry services world dur now cache target).result.errorType =
        "" ↔
      (CheckTarget cacheTTL maxRetry services world dur now cache target).result.status =
        "success") ∧
    (∀ u rc,
      cacheLookup
          (CheckTarget cacheTTL maxRetry services world dur now cache target).cache u =
        some rc →
      (rc.errorType = "" ↔ rc.status = "success")) := by
  cases hget : GetCachedResult cacheTTL now cache target.url with
  | some rc =>
    rw [CheckTarget_hit cacheTTL maxRetry services world dur now cache target rc hget]
    exact ⟨hcache target.url rc
      (getCached_mem cacheTTL now cache target.url rc hget), hcache⟩
  | none =>
    rw [CheckTarget_miss cacheTTL maxRetry services world dur now cache target hget]
    have hinv := retryLoop_inv (dispatchProbe world services target) dur maxRetry
      (dispatchProbe_kind world services target) maxRetry 0
      { targetURL := target.url, status := "", statusCode := 0, responseTime := 0,
        sslCertExpiry := "", keywordMatched := false, errorMsg := "", errorType := "",
        warning := "", checkedAt := now } (by omega) hmax
    have hurl : ((retryLoop (dispatchProbe world services target) dur maxRetry 0 maxRetry
        { targetURL := target.url, status := "", statusCode := 0, responseTime := 0,
          sslCertExpiry := "", keywordMatched := false, errorMsg := "", errorType := "",
          warning := "", checkedAt := now }).1).targetURL = target.url :=
      retryLoop_url _ dur maxRetry (dispatchProbe_url world services target) maxRetry 0 _
    refine ⟨hinv, ?_⟩
    intro u rc hl
    by_cases hu : u = ((retryLoop (dispatchProbe world services target) dur maxRetry
        0 maxRetry
        { targetURL := target.url, status := "", statusCode := 0, responseTime := 0,
          sslCertExpiry := "", keywordMatched := false, errorMsg := "", errorType := "",
          warning := "", checkedAt := now }).1).targetURL
    · have hself := cacheUpdate_lookup_self cache
        ((retryLoop (dispatchProbe world services target) dur maxRetry 0 maxRetry
          { targetURL := target.url, status := "", statusCode := 0, responseTime := 0,
            sslCertExpiry := "", keywordMatched := false, errorMsg := "", errorType := "",
            warning := "", checkedAt := now }).1)
      rw [hu] at hl
      rw [hself] at hl
      injection hl with hl2
      rw [← hl2]
      exact hinv
    · rw [cacheUpdate_lookup_ne cache _ u hu] at hl
      exact hcache u rc hl

/-- Witness for C5 at `maxRetry = 1` with an empty cache and a failing
probe. -/
theorem errorType_empty_iff_success_witness :
    (CheckTarget 30000000000 1 exNoServices exWorldFail exDur 0 [] exTarget).result.errorType =
        "" ↔
    (CheckTarget 30000000000 1 exNoServices exWorldFail exDur 0 [] exTarget).result.status =
        "success" :=
  (errorType_empty_iff_success 30000000000 1 exNoServices exWorldFail exDur 0 [] exTarget
    (by decide) (fun u rc h => nomatch h)).1

/-! ## C4: keyword versus status-code precedence -/

/-- Unfolding of the HTTP probe for a completed exchange whose body was read
successfully. -/
theorem checkHTTP_response_ok (sc : Int) (body keyword url : String)
    (cert : Option Int) (r : MonitorResult) :
    checkHTTP (.response sc false body cert) url keyword r =
      (if keyword ≠ "" ∧ goContains body keyword = false then
        (some ("响应体未找到关键词：" ++ keyword, ErrorTypeKeyword),
          { r with statusCode := sc, keywordMatched := false })
      else
        if sc < 200 ∨ 300 ≤ sc then
          (some ("HTTP状态码异常：" ++ toString sc, ErrorTypeHTTP),
            match cert with
            | none =>
              if keyword ≠ "" then { r with statusCode := sc, keywordMatched := true }
              else { r with statusCode := sc }
            | some ns =>
              applyCertInfo ns
                (if keyword ≠ "" then { r with statusCode := sc, keywordMatched := true }
                else { r with statusCode := sc }))
        else
          (none,
            match cert with
            | none =>
              if keyword ≠ "" then { r with statusCode := sc, keywordMatched := true }
              else { r with statusCode := sc }
            | some ns =>
              applyCertInfo ns
                (if keyword ≠ "" then { r with statusCode := sc, keywordMatched := true }
                else { r with statusCode := sc }))) := rfl

/-- Counterexample for C4 as stated: a 503 response whose body is missing the
configured keyword is classified `keyword`, not `http` — the keyword check
runs before the status-range validation, so status-code precedence over a
keyword mismatch does not hold. -/
theorem checkHTTP_status_precedence_cex :
    (checkHTTP (.response 503 false "hello there" none) "http://x" "kw" exR0).1 =
      some ("响应体未找到关键词：kw", ErrorTypeKeyword) ∧
    ErrorTypeKeyword ≠ ErrorTypeHTTP := by
  constructor
  · decide
  · decide

/-- Claim C4 (amended): after a successful exchange and body read the keyword
check runs before the status-range validation, whatever the status code: a
non-2xx response whose body passes the keyword check (keyword unset, or
contained in the body — in particular a 503 with the keyword present) is
classified `http`; a response missing its configured keyword is classified
`keyword` even when the status is also non-2xx. -/
theorem checkHTTP_keyword_precedes_status (sc : Int) (body keyword url : String)
    (cert : Option Int) (r : MonitorResult)
    (hnon2xx : sc < 200 ∨ 300 ≤ sc) :
    (keyword = "" ∨ goContains body keyword = true →
      ∃ msg, (checkHTTP (.response sc false body cert) url keyword r).1 =
        some (msg, ErrorTypeHTTP)) ∧
    (keyword ≠ "" → goContains body keyword = false →
      ∃ msg, (checkHTTP (.response sc false body cert) url keyword r).1 =
        some (msg, ErrorTypeKeyword)) := by
  rw [checkHTTP_response_ok]
  constructor
  · intro hkw
    have hkwcond : ¬ (keyword ≠ "" ∧ goContains body keyword = false) := by
      rcases hkw with h | h
      · exact fun hc => hc.1 h
      · intro hc
        rw [h] at hc
        cases hc.2
    rw [if_neg hkwcond, if_pos hnon2xx]
    exact ⟨_, rfl⟩
  · intro hne hmiss
    rw [if_pos ⟨hne, hmiss⟩]
    exact ⟨_, rfl⟩

/-- Witness for C4: a 503 body containing the keyword classifies `http`. -/
theorem checkHTTP_keyword_precedes_status_witness :
    ((checkHTTP (.response 503 false "service kw degraded" none) "http://x" "kw"
        exR0).1).map Prod.snd = some ErrorTypeHTTP := by
  obtain ⟨msg, hm⟩ := (checkHTTP_keyword_precedes_status 503 "service kw degraded" "kw"
    "http://x" none exR0 (by decide)).1 (Or.inr (by decide))
  rw [hm]
  rfl

/-! ## C6: certificate-expiry rendering -/

/-- Counterexample for C6 as stated: a certificate that expired 36 hours ago
has `floor(-36 / 24) = -2`, but the Go conversion truncates toward zero and
the code computes `-1`, rendering "expired 1 day ago" where the floor reading
demands "expired 2 days ago". -/
theorem cert_days_truncation_cex :
    certDays (-129600000000000) = -1 ∧
    Int.fdiv (-129600000000000) 86400000000000 = -2 ∧
    (applyCertInfo (-129600000000000) exR0).sslCertExpiry = "已过期1天" := by
  refine ⟨by decide, by decide, by decide⟩

/-- Claim C6 (amended): `daysRemaining` is the truncation toward zero of the
nanosecond duration divided by 24h (equal to the claimed floor only for
non-negative durations); positive counts render "expires in N days", zero
renders "expires today", negative renders "expired N days ago"; the warning
field is populated exactly when `daysRemaining < 7` and otherwise left
untouched; and the certificate info never changes the probe's
success/failure outcome. -/
theorem cert_expiry_rendering (ns : Int) (r : MonitorResult) :
    certDays ns = Int.tdiv ns 86400000000000 ∧
    (0 < certDays ns →
      (applyCertInfo ns r).sslCertExpiry = "还有" ++ toString (certDays ns) ++ "天过期") ∧
    (certDays ns = 0 → (applyCertInfo ns r).sslCertExpiry = "今日过期") ∧
    (certDays ns < 0 →
      (applyCertInfo ns r).sslCertExpiry = "已过期" ++ toString (-certDays ns) ++ "天") ∧
    ((applyCertInfo ns r).warning =
      if certDays ns < 7 then "SSL证书即将过期（剩余" ++ toString (certDays ns) ++ "天）"
      else r.warning) ∧
    (∀ (sc : Int) (be : Bool) (body keyword url : String) (r2 : MonitorResult),
      (checkHTTP (.response sc be body (some ns)) url keyword r2).1 =
        (checkHTTP (.response sc be body none) url keyword r2).1) := by
  refine ⟨rfl, ?_, ?_, ?_, ?_, ?_⟩
  · intro h
    unfold applyCertInfo
    dsimp only
    rw [if_pos h]
    by_cases h7 : certDays ns < 7 <;> simp [h7]
  · intro h
    unfold applyCertInfo
    dsimp only
    rw [if_neg (by omega : ¬ 0 < certDays ns), if_pos h,
      if_pos (by omega : certDays ns < 7)]
  · intro h
    unfold applyCertInfo
    dsimp only
    rw [if_neg (by omega : ¬ 0 < certDays ns), if_neg (by omega : ¬ certDays ns = 0),
      if_pos (by omega : certDays ns < 7)]
  · unfold applyCertInfo
    dsimp only
    split_ifs <;> simp
  · intro sc be body keyword url r2
    cases be with
    | true => rfl
    | false =>
      rw [checkHTTP_response_ok, checkHTTP_response_ok]
      split_ifs <;> rfl

/-- Witness for C6 at the four concrete expiry distances of the claim. -/
theorem cert_expiry_rendering_witness :
    (applyCertInfo 0 exR0).sslCertExpiry = "今日过期" ∧
    (applyCertInfo (-432000000000000) exR0).sslCertExpiry = "已过期5天" ∧
    (applyCertInfo 864000000000000 exR0).sslCertExpiry = "还有10天过期" ∧
    (applyCertInfo 864000000000000 exR0).warning = "" ∧
    (applyCertInfo 259200000000000 exR0).warning = "SSL证书即将过期（剩余3天）" := by
  refine ⟨?_, ?_, ?_, ?_, ?_⟩
  · exact (cert_expiry_rendering 0 exR0).2.2.1 (by decide)
  · have h := (cert_expiry_rendering (-432000000000000) exR0).2.2.2.1 (by decide)
    rw [h]
    decide
  · have h := (cert_expiry_rendering 864000000000000 exR0).2.1 (by decide)
    rw [h]
    decide
  · have h := (cert_expiry_rendering 864000000000000 exR0).2.2.2.2.1
    rw [h]
    decide
  · have h := (cert_expiry_rendering 259200000000000 exR0).2.2.2.2.1
    rw [h]
    decide

/-! ## C10: case-sensitive prefix stripping under case-insensitive dispatch -/

/-- Peeling one character off a prefix test against a mapped list. -/
theorem listPre_map_cons {p : Char} {ps : List Char} {f : Char → Char}
    {l : List Char} (h : listPre (p :: ps) (l.map f) = true) :
    ∃ c t, l = c :: t ∧ f c = p ∧ listPre ps (t.map f) = true := by
  cases l with
  | nil => exact absurd h (by simp [listPre])
  | cons c t =>
    simp only [List.map_cons, listPre, Bool.and_eq_true, decide_eq_true_eq] at h
    exact ⟨c, t, rfl, h.1.symm, h.2⟩

/-- Only `:` lowercases to `:`. -/
theorem goToLowerChar_colon (c : Char) (h : goToLowerChar c = ':') : c = ':' := by
  unfold goToLowerChar at h
  split at h <;> simp_all

/-- Only `/` lowercases to `/`. -/
theorem goToLowerChar_slash (c : Char) (h : goToLowerChar c = '/') : c = '/' := by
  unfold goToLowerChar at h
  split at h <;> simp_all

/-- Only `t` and `T` lowercase to `t`. -/
theorem goToLowerChar_t (c : Char) (h : goToLowerChar c = 't') : c = 't' ∨ c = 'T' := by
  unfold goToLowerChar at h
  split at h <;> simp_all

/-- Only `c` and `C` lowercase to `c`. -/
theorem goToLowerChar_c (c : Char) (h : goToLowerChar c = 'c') : c = 'c' ∨ c = 'C' := by
  unfold goToLowerChar at h
  split at h <;> simp_all

/-- Only `p` and `P` lowercase to `p`. -/
theorem goToLowerChar_p (c : Char) (h : goToLowerChar c = 'p') : c = 'p' ∨ c = 'P' := by
  unfold goToLowerChar at h
  split at h <;> simp_all

/-- Cons steps for the last-index search. -/
theorem lastIdxOf_cons_some (x : Char) {c : Char} {xs : List Char} {i : Nat}
    (h : lastIdxOf c xs = some i) : lastIdxOf c (x :: xs) = some (i + 1) := by
  simp [lastIdxOf, h]

/-- A non-matching head preserves absence. -/
theorem lastIdxOf_cons_none {c x : Char} {xs : List Char}
    (h : lastIdxOf c xs = none) (hx : ¬ x = c) : lastIdxOf c (x :: xs) = none := by
  simp [lastIdxOf, h, hx]

/-- A matching head when the tail has none gives index zero. -/
theorem lastIdxOf_cons_hit {c : Char} {xs : List Char}
    (h : lastIdxOf c xs = none) : lastIdxOf c (c :: xs) = some 0 := by
  simp [lastIdxOf, h]

/-- A service string beginning with a slash resolves no port: it is not a
decimal number and the services database holds no name containing `/`. -/
theorem lookupPort_slash (services : String → Option Nat)
    (hserv : ∀ s : String, hasChar '/' s.data = true → services s = none)
    (t : List Char) : lookupPort services ⟨'/' :: t⟩ = none := by
  unfold lookupPort
  dsimp only
  rw [if_neg ?hcond]
  case hcond =>
    intro hc
    have hd := hc.2
    simp [allDigits] at hd
  exact hserv ⟨'/' :: t⟩ (by simp [hasChar])

/-- `net.SplitHostPort` applied to a full URL of shape `xyz://rest` (the
scheme letters lowercasing to `tcp`): either it errors, or the port it
returns starts with `/`. -/
theorem splitHostPort_tcpish (c0 c1 c2 : Char) (rest : List Char) (url : String)
    (hurl : url.data = c0 :: c1 :: c2 :: ':' :: '/' :: '/' :: rest)
    (h0 : c0 = 't' ∨ c0 = 'T') (h1 : c1 = 'c' ∨ c1 = 'C')
    (h2 : c2 = 'p' ∨ c2 = 'P') :
    (∃ e, splitHostPort url = .error e) ∨
    (∃ host t, splitHostPort url = .ok (host, ⟨'/' :: t⟩)) := by
  have hc0brk : ¬ ((c0 :: c1 :: c2 :: ':' :: '/' :: '/' :: rest).head? = some '[') := by
    rcases h0 with rfl | rfl <;> simp
  unfold splitHostPort
  dsimp only
  rw [hurl]
  cases hrest : lastIdxOf ':' rest with
  | some j =>
    have l1 := lastIdxOf_cons_some '/' hrest
    have l2 := lastIdxOf_cons_some '/' l1
    have l3 := lastIdxOf_cons_some ':' l2
    have l4 := lastIdxOf_cons_some c2 l3
    have l5 := lastIdxOf_cons_some c1 l4
    have l6 := lastIdxOf_cons_some c0 l5
    have hfull : lastIdxOf ':' (c0 :: c1 :: c2 :: ':' :: '/' :: '/' :: rest) =
        some (j + 6) := by
      rw [l6]
    rw [hfull]
    dsimp only
    rw [if_neg hc0brk]
    have htake : hasChar ':' ((c0 :: c1 :: c2 :: ':' :: '/' :: '/' :: rest).take (j + 6)) =
        true := by
      rw [show j + 6 = j + 5 + 1 from rfl, List.take_succ_cons,
        show j + 5 = j + 4 + 1 from rfl, List.take_succ_cons,
        show j + 4 = j + 3 + 1 from rfl, List.take_succ_cons,
        show j + 3 = j + 2 + 1 from rfl, List.take_succ_cons]
      simp [hasChar]
    rw [if_pos htake]
    exact Or.inl ⟨_, rfl⟩
  | none =>
    have h4 : lastIdxOf ':' ('/' :: rest) = none := lastIdxOf_cons_none hrest (by decide)
    have h5 : lastIdxOf ':' ('/' :: '/' :: rest) = none := lastIdxOf_cons_none h4 (by decide)
    have h6 : lastIdxOf ':' (':' :: '/' :: '/' :: rest) = some 0 := lastIdxOf_cons_hit h5
    have h7 := lastIdxOf_cons_some c2 h6
    have h8 := lastIdxOf_cons_some c1 h7
    have h9 := lastIdxOf_cons_some c0 h8
    have h9' : lastIdxOf ':' (c0 :: c1 :: c2 :: ':' :: '/' :: '/' :: rest) = some 3 := by
      simpa using h9
    rw [h9']
    dsimp only
    rw [if_neg hc0brk]
    have hhost : ¬ (hasChar ':' ((c0 :: c1 :: c2 :: ':' :: '/' :: '/' :: rest).take 3) =
        true) := by
      show ¬ (hasChar ':' [c0, c1, c2] = true)
      rcases h0 with rfl | rfl <;> rcases h1 with rfl | rfl <;>
        rcases h2 with rfl | rfl <;> decide
    rw [if_neg hhost]
    by_cases hbl : hasChar '[' (c0 :: c1 :: c2 :: ':' :: '/' :: '/' :: rest) = true
    · rw [if_pos hbl]
      exact Or.inl ⟨_, rfl⟩
    · rw [if_neg hbl]
      by_cases hbr : hasChar ']' (c0 :: c1 :: c2 :: ':' :: '/' :: '/' :: rest) = true
      · rw [if_pos hbr]
        exact Or.inl ⟨_, rfl⟩
      · rw [if_neg hbr]
        exact Or.inr ⟨_, '/' :: rest, rfl⟩

/-- A URL whose lowercasing starts with `tcp://` but which does not itself
start with the lowercase prefix always makes the TCP probe fail `invalid`
with no dial attempt: `TrimPrefix` leaves it whole, and host:port parsing of
a full URL either hits too many colons, a stray bracket, or a port string
starting with `/`. -/
theorem checkTCP_case_mismatch (url : String) (dial : DialOutcome)
    (services : String → Option Nat) (r : MonitorResult)
    (hdisp : goStartsWith (goToLower url) "tcp://" = true)
    (hexact : goStartsWith url "tcp://" = false)
    (hserv : ∀ s : String, hasChar '/' s.data = true → services s = none) :
    ∃ msg, checkTCP dial services url r = (some (msg, ErrorTypeInvalid), r, false) := by
  have htrim : goTrim url "tcp://" = url := by
    unfold goTrim
    rw [if_neg (by simp [hexact])]
  have hdisp' : listPre ("tcp://".data) (url.data.map goToLowerChar) = true := hdisp
  rw [show "tcp://".data = 't' :: 'c' :: 'p' :: ':' :: '/' :: '/' :: [] from rfl] at hdisp'
  obtain ⟨c0, t0, he0, hf0, hp0⟩ := listPre_map_cons hdisp'
  obtain ⟨c1, t1, he1, hf1, hp1⟩ := listPre_map_cons hp0
  obtain ⟨c2, t2, he2, hf2, hp2⟩ := listPre_map_cons hp1
  obtain ⟨c3, t3, he3, hf3, hp3⟩ := listPre_map_cons hp2
  obtain ⟨c4, t4, he4, hf4, hp4⟩ := listPre_map_cons hp3
  obtain ⟨c5, t5, he5, hf5, hp5⟩ := listPre_map_cons hp4
  have h0 := goToLowerChar_t c0 hf0
  have h1 := goToLowerChar_c c1 hf1
  have h2 := goToLowerChar_p c2 hf2
  have hurl : url.data = c0 :: c1 :: c2 :: ':' :: '/' :: '/' :: t5 := by
    rw [he0, he1, he2, he3, he4, he5, goToLowerChar_colon c3 hf3,
      goToLowerChar_slash c4 hf4, goToLowerChar_slash c5 hf5]
  have hne : ¬ (url = "") := by
    intro he
    rw [he] at hurl
    simp at hurl
  unfold checkTCP
  dsimp only
  rw [htrim, if_neg hne]
  rcases splitHostPort_tcpish c0 c1 c2 t5 url hurl h0 h1 h2 with ⟨e, hsp⟩ | ⟨host, t, hsp⟩
  · rw [hsp]
    exact ⟨_, rfl⟩
  · rw [hsp]
    dsimp only
    rw [lookupPort_slash services hserv t]
    exact ⟨_, rfl⟩

/-- Claim C10: for a target URL starting with `tcp://` in any letter case
other than exact lowercase, `CheckTarget` still dispatches to the TCP probe
(the dispatch lowercases first), but `strings.TrimPrefix` is case-sensitive
and leaves the URL whole, so host:port parsing runs on the full URL and the
attempt fails with kind `invalid` before any dial, whatever the network would
have answered. -/
theorem tcp_case_mismatch_invalid (url : String) (dial : DialOutcome)
    (services : String → Option Nat) (r : MonitorResult)
    (hdisp : goStartsWith (goToLower url) "tcp://" = true)
    (hexact : goStartsWith url "tcp://" = false)
    (hserv : ∀ s : String, hasChar '/' s.data = true → services s = none) :
    (∃ msg, checkTCP dial services url r = (some (msg, ErrorTypeInvalid), r, false)) ∧
    (∀ (world : Nat → ProbeWorld) (target : MonitorTarget) (i : Nat),
      target.url = url →
      ∃ msg, dispatchProbe world services target i r = (some (msg, ErrorTypeInvalid), r)) := by
  refine ⟨checkTCP_case_mismatch url dial services r hdisp hexact hserv, ?_⟩
  intro world target i htgt
  obtain ⟨msg, hck⟩ :=
    checkTCP_case_mismatch url (world i).dial services r hdisp hexact hserv
  refine ⟨msg, ?_⟩
  unfold dispatchProbe
  dsimp only
  rw [htgt, if_pos hdisp, hck]

/-- Witness for C10 at `TCP://host:80`: kind `invalid`, no dial. -/
theorem tcp_case_mismatch_invalid_witness :
    ((checkTCP DialOutcome.ok exNoServices "TCP://host:80" exR0).1).map Prod.snd =
      some ErrorTypeInvalid ∧
    (checkTCP DialOutcome.ok exNoServices "TCP://host:80" exR0).2.2 = false := by
  obtain ⟨msg, hck⟩ := (tcp_case_mismatch_invalid "TCP://host:80" DialOutcome.ok
    exNoServices exR0 (by decide) (by decide) (fun s h => rfl)).1
  rw [hck]
  exact ⟨rfl, rfl⟩

end ServiceTelemetry
